import Mathlib

/-!
Verification of the security-provider and validator-detection layer of an
OpenAPI request/response validation library.

The security providers (`openapi_core/security/providers.py`) are embedded
as pure Lean functions over an explicit `RequestParameters` record; Python
dictionaries become association lists with first-match lookup (Python dicts
have unique keys, so first-match lookup coincides with dict lookup), and
raising `SecurityError` becomes an `error` result.
-/

/-- The `SecurityError` exception, carrying its message. -/
structure SecurityError where
  message : String
deriving DecidableEq, Repr

/-- `RequestParameters` (from `openapi_core.validation.request.datatypes`):
per-location dictionaries of request parameters, modelled as association
lists from parameter name to raw string value. -/
structure RequestParameters where
  query : List (String × String)
  header : List (String × String)
  cookie : List (String × String)
  path : List (String × String)
deriving DecidableEq, Repr

/-- The locations an `apiKey` security scheme may declare in its `in`
field (`query`, `header` or `cookie`). -/
inductive SecLocation where
  | query
  | header
  | cookie
deriving DecidableEq, Repr

/-- `getattr(parameters, location)`: select the dictionary for the
declared location. -/
def RequestParameters.getLoc (parameters : RequestParameters) :
    SecLocation → List (String × String)
  | SecLocation.query => parameters.query
  | SecLocation.header => parameters.header
  | SecLocation.cookie => parameters.cookie

/-- An `apiKey` security scheme: the declared parameter `name` and the
declared `in` location. -/
structure ApiKeyScheme where
  name : String
  location : SecLocation
deriving DecidableEq, Repr

/-- An `http` security scheme: the declared `scheme` string
(e.g. `"basic"`, `"bearer"`). -/
structure HttpScheme where
  scheme : String
deriving DecidableEq, Repr

/-- The result of one provider call: either a returned credential
(`none` when the Python method falls off the end returning `None`) or a
raised `SecurityError`. -/
inductive ProviderResult where
  | ok (credential : Option String)
  | error (e : SecurityError)
deriving DecidableEq, Repr

/-- A provider call's full observable outcome: the warnings it emitted via
`warnings.warn` and its result. -/
structure ProviderOutcome where
  warnings : List String
  result : ProviderResult
deriving DecidableEq, Repr

/-- `auth_header.split(" ", 1)` followed by unpacking into two variables,
on the character list: locate the first space; `none` models the
`ValueError` raised when there is no space to split on. -/
def splitFirstSpaceAux : List Char → Option (List Char × List Char)
  | [] => none
  | c :: cs =>
    if c = ' ' then some ([], cs)
    else
      match splitFirstSpaceAux cs with
      | none => none
      | some (pre, post) => some (c :: pre, post)

/-- `auth_header.split(" ", 1)` on strings: `some (before, after)` split at
the first space, `none` when the header contains no space. -/
def splitFirstSpace (s : String) : Option (String × String) :=
  match splitFirstSpaceAux s.data with
  | none => none
  | some (pre, post) => some (String.mk pre, String.mk post)

/-- Python's `str.lower()` as the provider uses it (per-character
lowercasing; the scheme tokens involved are ASCII). -/
def strLower (s : String) : String :=
  String.mk (s.data.map Char.toLower)

namespace UnsupportedProvider

/-- `UnsupportedProvider.__call__`: warn `"Unsupported scheme type"` and
return `None`. -/
def call (_parameters : RequestParameters) : ProviderOutcome :=
  { warnings := ["Unsupported scheme type"], result := ProviderResult.ok none }

end UnsupportedProvider

namespace ApiKeyProvider

/-- `ApiKeyProvider.__call__`: look up `self.scheme["name"]` in
`getattr(parameters, self.scheme["in"])`; raise `SecurityError` when the
name is absent, else return the stored value. -/
def call (scheme : ApiKeyScheme) (parameters : RequestParameters) :
    ProviderOutcome :=
  let source := parameters.getLoc scheme.location
  match source.lookup scheme.name with
  | none =>
    { warnings := [],
      result := ProviderResult.error ⟨"Missing api key parameter."⟩ }
  | some v => { warnings := [], result := ProviderResult.ok (some v) }

end ApiKeyProvider

namespace HttpProvider

/-- `HttpProvider.__call__`: require an `Authorization` header, split it at
the first space into `auth_type` and `encoded_credentials`, compare
`auth_type.lower()` with the declared scheme string, and return the
credentials on a match; each failure raises `SecurityError` with the
message the source uses. -/
def call (scheme : HttpScheme) (parameters : RequestParameters) :
    ProviderOutcome :=
  match parameters.header.lookup "Authorization" with
  | none =>
    { warnings := [],
      result := ProviderResult.error ⟨"Missing authorization header."⟩ }
  | some auth_header =>
    match splitFirstSpace auth_header with
    | none =>
      { warnings := [],
        result := ProviderResult.error ⟨"Could not parse authorization header."⟩ }
    | some (auth_type, encoded_credentials) =>
      if strLower auth_type = scheme.scheme then
        { warnings := [], result := ProviderResult.ok (some encoded_credentials) }
      else
        { warnings := [],
          result := ProviderResult.error
            ⟨"Unknown authorization method " ++ auth_type⟩ }

/-- `HttpProvider.__call__` with the mutable environment threaded
explicitly: the method reads `self.scheme` and `parameters` and performs
no assignment to either, so the post-call state it produces is the state
it was given. -/
def callThreaded (scheme : HttpScheme) (parameters : RequestParameters) :
    (HttpScheme × RequestParameters) × ProviderOutcome :=
  ((scheme, parameters), call scheme parameters)

end HttpProvider

namespace ApiKeyProvider

/-- `ApiKeyProvider.__call__` with the mutable environment threaded
explicitly: only reads, no assignment, so the post-call state equals the
pre-call state. -/
def callThreaded (scheme : ApiKeyScheme) (parameters : RequestParameters) :
    (ApiKeyScheme × RequestParameters) × ProviderOutcome :=
  ((scheme, parameters), call scheme parameters)

end ApiKeyProvider

namespace UnsupportedProvider

/-- `UnsupportedProvider.__call__` with the mutable environment threaded
explicitly. -/
def callThreaded (parameters : RequestParameters) :
    RequestParameters × ProviderOutcome :=
  (parameters, call parameters)

end UnsupportedProvider

/-! ## Validator detection and dispatch

The shortcut layer that detects which validator/unmarshaller variant
applies to a (specification version, message) pair lives outside the
sources available here; only its unit tests are present
(`tests/unit/test_shortcuts.py`, `tests/unit/validation/test_shortcuts.py`).
It is therefore modelled from the specification. -/

/-- Modelled from the spec: the specification's declared OpenAPI version,
as far as detection distinguishes it (webhooks exist only from 3.1 on). -/
inductive SpecVersion where
  | v30
  | v31
deriving DecidableEq, Repr

/-- Modelled from the spec: the runtime capability a message object may
expose — it behaves as an API-call `Request`, a `WebhookRequest`, a
`Response`, or satisfies none of the recognized capability interfaces. -/
inductive MessageCapability where
  | request
  | webhookRequest
  | response
  | unrecognized
deriving DecidableEq, Repr

/-- Modelled from the spec: the detection errors — the specification
version does not support the requested message kind (the tests raise
`SpecError`), or the message satisfies no recognized capability interface
(the tests raise `TypeError`). -/
inductive DetectionError where
  | unsupportedSpecVersion
  | unrecognizedMessage
deriving DecidableEq, Repr

/-- Modelled from the spec: the closed set of orchestrator variants the
dispatch table can select, keyed by specification version and message
capability. -/
inductive Orchestrator where
  | apicallRequestV30
  | apicallRequestV31
  | webhookRequestV31
  | apicallResponseV30
  | apicallResponseV31
  | webhookResponseV31
deriving DecidableEq, Repr

/-- Modelled from the spec (`Validator Detection & Dispatch`, absent from
the sources here): select the concrete orchestrator variant from the
specification's declared version and the message's runtime capability;
fail with a detection error when the version does not support the message
kind (no webhook orchestrator before 3.1) or when the message satisfies
none of the recognized capability interfaces. -/
def detectOrchestrator (version : SpecVersion) (cap : MessageCapability) :
    Except DetectionError Orchestrator :=
  match cap, version with
  | MessageCapability.request, SpecVersion.v30 =>
    Except.ok Orchestrator.apicallRequestV30
  | MessageCapability.request, SpecVersion.v31 =>
    Except.ok Orchestrator.apicallRequestV31
  | MessageCapability.webhookRequest, SpecVersion.v30 =>
    Except.error DetectionError.unsupportedSpecVersion
  | MessageCapability.webhookRequest, SpecVersion.v31 =>
    Except.ok Orchestrator.webhookRequestV31
  | MessageCapability.response, SpecVersion.v30 =>
    Except.ok Orchestrator.apicallResponseV30
  | MessageCapability.response, SpecVersion.v31 =>
    Except.ok Orchestrator.apicallResponseV31
  | MessageCapability.unrecognized, _ =>
    Except.error DetectionError.unrecognizedMessage

/-- Modelled from the spec: a shortcut (validate or unmarshal) first runs
detection and only then hands the message to the selected orchestrator;
`resolve` stands for everything downstream of detection (operation
resolution, validation, unmarshalling), so an outcome independent of
`resolve` is an outcome reached before any of that was attempted. -/
def runShortcut {α : Type} (resolve : Orchestrator → α)
    (version : SpecVersion) (cap : MessageCapability) :
    Except DetectionError α :=
  match detectOrchestrator version cap with
  | Except.error e => Except.error e
  | Except.ok orch => Except.ok (resolve orch)

/-! ## Properties of the first-space split -/

theorem splitFirstSpaceAux_eq_none_iff (l : List Char) :
    splitFirstSpaceAux l = none ↔ ' ' ∉ l := by
  induction l with
  | nil => simp [splitFirstSpaceAux]
  | cons c cs ih =>
    by_cases hc : c = ' '
    · subst hc
      simp [splitFirstSpaceAux]
    · cases h : splitFirstSpaceAux cs with
      | none =>
        simp only [splitFirstSpaceAux, if_neg hc, h]
        simp [Ne.symm hc, ih.mp h]
      | some p =>
        simp only [splitFirstSpaceAux, if_neg hc, h]
        constructor
        · intro hfalse
          exact absurd hfalse (by simp)
        · intro hmem
          exact absurd (ih.mpr (by simp [List.mem_cons, Ne.symm hc] at hmem; exact hmem)) (by simp [h])


theorem splitFirstSpaceAux_append (t c : List Char) (ht : ' ' ∉ t) :
    splitFirstSpaceAux (t ++ ' ' :: c) = some (t, c) := by
  induction t with
  | nil => simp [splitFirstSpaceAux]
  | cons a as ih =>
    have ha : a ≠ ' ' := by
      intro h
      exact ht (by simp [h])
    have has : ' ' ∉ as := fun h => ht (List.mem_cons_of_mem _ h)
    simp [splitFirstSpaceAux, ha, ih has]

theorem splitFirstSpaceAux_sound (l pre post : List Char)
    (h : splitFirstSpaceAux l = some (pre, post)) :
    l = pre ++ ' ' :: post ∧ ' ' ∉ pre := by
  induction l generalizing pre post with
  | nil => simp [splitFirstSpaceAux] at h
  | cons c cs ih =>
    by_cases hc : c = ' '
    · subst hc
      simp [splitFirstSpaceAux] at h
      obtain ⟨h1, h2⟩ := h
      subst h1
      subst h2
      simp
    · cases hcs : splitFirstSpaceAux cs with
      | none => simp [splitFirstSpaceAux, hc, hcs] at h
      | some p =>
        obtain ⟨p1, p2⟩ := p
        simp [splitFirstSpaceAux, hc, hcs] at h
        obtain ⟨h1, h2⟩ := h
        subst h1
        subst h2
        obtain ⟨hl, hn⟩ := ih p1 p2 hcs
        refine ⟨by simp [hl], ?_⟩
        simp [List.mem_cons, hn, Ne.symm hc]

theorem splitFirstSpace_append (t c : String) (ht : ' ' ∉ t.data) :
    splitFirstSpace (t ++ " " ++ c) = some (t, c) := by
  have hdata : (t ++ " " ++ c).data = t.data ++ ' ' :: c.data := by
    simp [String.data_append]
  simp [splitFirstSpace, hdata, splitFirstSpaceAux_append t.data c.data ht]

theorem splitFirstSpace_eq_none_iff (s : String) :
    splitFirstSpace s = none ↔ ' ' ∉ s.data := by
  rw [← splitFirstSpaceAux_eq_none_iff]
  unfold splitFirstSpace
  cases h : splitFirstSpaceAux s.data <;> simp [h]

theorem splitFirstSpace_sound (s t c : String)
    (h : splitFirstSpace s = some (t, c)) :
    s.data = t.data ++ ' ' :: c.data ∧ ' ' ∉ t.data := by
  unfold splitFirstSpace at h
  cases haux : splitFirstSpaceAux s.data with
  | none => simp [haux] at h
  | some p =>
    obtain ⟨p1, p2⟩ := p
    simp [haux] at h
    obtain ⟨h1, h2⟩ := h
    subst h1
    subst h2
    exact splitFirstSpaceAux_sound s.data p1 p2 haux

/-! ## Claims -/

/-- Claim C2: for every API-key security scheme and every request
parameters object, `ApiKeyProvider.__call__` fails with `SecurityError`
exactly when the named parameter is absent from the declared location, and
otherwise returns the stored value for that name unchanged. -/
theorem apiKey_call_characterization
    (scheme : ApiKeyScheme) (p : RequestParameters) :
    ((∃ e, (ApiKeyProvider.call scheme p).result = ProviderResult.error e) ↔
      (p.getLoc scheme.location).lookup scheme.name = none)
    ∧ ∀ v, (p.getLoc scheme.location).lookup scheme.name = some v →
        (ApiKeyProvider.call scheme p).result = ProviderResult.ok (some v) := by
  unfold ApiKeyProvider.call
  cases h : (p.getLoc scheme.location).lookup scheme.name <;> simp [h]

/-- Witness for C2 at the spec's scenario: scheme `api_key` in `header`,
header `api_key: abc123` yields `abc123`; without the header the call
fails. -/
theorem apiKey_call_characterization_witness :
    (ApiKeyProvider.call ⟨"api_key", SecLocation.header⟩
        ⟨[], [("api_key", "abc123")], [], []⟩).result =
      ProviderResult.ok (some "abc123")
    ∧ ∃ e, (ApiKeyProvider.call ⟨"api_key", SecLocation.header⟩
        ⟨[], [], [], []⟩).result = ProviderResult.error e := by
  constructor
  · exact (apiKey_call_characterization ⟨"api_key", SecLocation.header⟩
      ⟨[], [("api_key", "abc123")], [], []⟩).2 "abc123" rfl
  · exact (apiKey_call_characterization ⟨"api_key", SecLocation.header⟩
      ⟨[], [], [], []⟩).1.mpr rfl

/-- Claim C4: for scheme `bearer`, header `Authorization: Bearer xyz`
yields credential `xyz`, while `Authorization: Basic xyz` fails with the
scheme-mismatch `SecurityError`. -/
theorem http_bearer_scenario :
    (HttpProvider.call ⟨"bearer"⟩
        ⟨[], [("Authorization", "Bearer xyz")], [], []⟩).result =
      ProviderResult.ok (some "xyz")
    ∧ (HttpProvider.call ⟨"bearer"⟩
        ⟨[], [("Authorization", "Basic xyz")], [], []⟩).result =
      ProviderResult.error ⟨"Unknown authorization method Basic"⟩ :=
  ⟨rfl, rfl⟩

/-- Claim C5: for every request parameters object,
`UnsupportedProvider.__call__` emits a non-fatal warning, never raises an
error, and returns no credential. -/
theorem unsupported_call_spec (p : RequestParameters) :
    (UnsupportedProvider.call p).warnings = ["Unsupported scheme type"]
    ∧ (∀ e, (UnsupportedProvider.call p).result ≠ ProviderResult.error e)
    ∧ (UnsupportedProvider.call p).result = ProviderResult.ok none :=
  ⟨rfl, fun _ h => ProviderResult.noConfusion h, rfl⟩

/-- Claim C9: `ApiKeyProvider.__call__` decides presence by key
membership: a parameter present with an empty-string value succeeds and
returns the empty string. -/
theorem apiKey_empty_value_succeeds
    (scheme : ApiKeyScheme) (p : RequestParameters)
    (h : (p.getLoc scheme.location).lookup scheme.name = some "") :
    (ApiKeyProvider.call scheme p).result = ProviderResult.ok (some "") := by
  unfold ApiKeyProvider.call
  simp [h]

/-- Witness for C9: an `api_key` query parameter mapped to the empty
string is extracted as the empty string. -/
theorem apiKey_empty_value_succeeds_witness :
    (ApiKeyProvider.call ⟨"api_key", SecLocation.query⟩
        ⟨[("api_key", "")], [], [], []⟩).result =
      ProviderResult.ok (some "") :=
  apiKey_empty_value_succeeds ⟨"api_key", SecLocation.query⟩
    ⟨[("api_key", "")], [], [], []⟩ rfl

/-- Claim C8: every provider call is read-only and repeatable: the
threaded call returns the scheme and the parameters unchanged, and a
second call on the state left by the first produces the same outcome. -/
theorem providers_readonly_repeatable
    (aks : ApiKeyScheme) (hs : HttpScheme) (p : RequestParameters) :
    ((ApiKeyProvider.callThreaded aks p).1 = (aks, p)
      ∧ (HttpProvider.callThreaded hs p).1 = (hs, p)
      ∧ (UnsupportedProvider.callThreaded p).1 = p)
    ∧ ((ApiKeyProvider.callThreaded
          (ApiKeyProvider.callThreaded aks p).1.1
          (ApiKeyProvider.callThreaded aks p).1.2).2
        = (ApiKeyProvider.callThreaded aks p).2
      ∧ (HttpProvider.callThreaded
          (HttpProvider.callThreaded hs p).1.1
          (HttpProvider.callThreaded hs p).1.2).2
        = (HttpProvider.callThreaded hs p).2
      ∧ (UnsupportedProvider.callThreaded
          (UnsupportedProvider.callThreaded p).1).2
        = (UnsupportedProvider.callThreaded p).2) :=
  ⟨⟨rfl, rfl, rfl⟩, rfl, rfl, rfl⟩

/-- Claim C1 as stated, with "the scheme token does not match the declared
scheme name" read case-insensitively on both sides, as the specification's
sentence says: extraction fails iff the header is missing, or holds no
space, or the token differs from the declared name ignoring letter case;
otherwise it returns the portion after the first space. -/
def httpFailsIffSpecCI : Prop :=
  ∀ (scheme : HttpScheme) (p : RequestParameters),
    ((∃ e, (HttpProvider.call scheme p).result = ProviderResult.error e) ↔
      (p.header.lookup "Authorization" = none
        ∨ (∃ h, p.header.lookup "Authorization" = some h
            ∧ splitFirstSpace h = none)
        ∨ (∃ h t c, p.header.lookup "Authorization" = some h
            ∧ splitFirstSpace h = some (t, c)
            ∧ strLower t ≠ strLower scheme.scheme)))
    ∧ ∀ h t c, p.header.lookup "Authorization" = some h →
        splitFirstSpace h = some (t, c) →
        strLower t = strLower scheme.scheme →
        (HttpProvider.call scheme p).result = ProviderResult.ok (some c)

/-- Counterexample to C1 as stated: declared scheme `Bearer` (not
lowercase), header `Authorization: Bearer xyz`. The token matches the
declared name ignoring case, yet the call raises the scheme-mismatch
`SecurityError`, because the code lowercases only the token and compares
it verbatim with the declared name. -/
theorem http_fails_iff_ci_counterexample : ¬ httpFailsIffSpecCI := by
  intro hclaim
  have h2 := (hclaim ⟨"Bearer"⟩
      ⟨[], [("Authorization", "Bearer xyz")], [], []⟩).2
      "Bearer xyz" "Bearer" "xyz" rfl rfl rfl
  exact absurd h2 (by decide)

/-- Claim C1 (amended): `HttpProvider.__call__` fails with `SecurityError`
iff the `Authorization` header is missing, or the header contains no
space, or the lowercased scheme token differs from the declared scheme
name compared verbatim (so a declared name that is not all lowercase never
matches); otherwise it returns the portion of the header after the first
space. -/
theorem http_call_failure_characterization
    (scheme : HttpScheme) (p : RequestParameters) :
    ((∃ e, (HttpProvider.call scheme p).result = ProviderResult.error e) ↔
      (p.header.lookup "Authorization" = none
        ∨ (∃ h, p.header.lookup "Authorization" = some h
            ∧ splitFirstSpace h = none)
        ∨ (∃ h t c, p.header.lookup "Authorization" = some h
            ∧ splitFirstSpace h = some (t, c)
            ∧ strLower t ≠ scheme.scheme)))
    ∧ ∀ h t c, p.header.lookup "Authorization" = some h →
        splitFirstSpace h = some (t, c) →
        strLower t = scheme.scheme →
        (HttpProvider.call scheme p).result = ProviderResult.ok (some c) := by
  cases hl : p.header.lookup "Authorization" with
  | none =>
    have hres : (HttpProvider.call scheme p).result =
        ProviderResult.error ⟨"Missing authorization header."⟩ := by
      simp [HttpProvider.call, hl]
    refine ⟨⟨fun _ => Or.inl rfl, fun _ => ⟨_, hres⟩⟩, ?_⟩
    intro h t c hh hsp hmt
    exact Option.noConfusion hh
  | some ah =>
    cases hs : splitFirstSpace ah with
    | none =>
      have hres : (HttpProvider.call scheme p).result =
          ProviderResult.error ⟨"Could not parse authorization header."⟩ := by
        simp [HttpProvider.call, hl, hs]
      refine ⟨⟨fun _ => Or.inr (Or.inl ⟨ah, rfl, hs⟩), fun _ => ⟨_, hres⟩⟩, ?_⟩
      intro h t c hh hsp hmt
      have hah := Option.some.inj hh
      subst hah
      rw [hs] at hsp
      exact Option.noConfusion hsp
    | some tc =>
      obtain ⟨t0, c0⟩ := tc
      by_cases hm : strLower t0 = scheme.scheme
      · have hres : (HttpProvider.call scheme p).result =
            ProviderResult.ok (some c0) := by
          simp [HttpProvider.call, hl, hs, hm]
        constructor
        · constructor
          · rintro ⟨e, he⟩
            rw [hres] at he
            exact ProviderResult.noConfusion he
          · intro hrhs
            rcases hrhs with h1 | ⟨h1, hh1, hs1⟩ | ⟨h1, t1, c1, hh1, hs1, hm1⟩
            · exact Option.noConfusion h1
            · have hah := Option.some.inj hh1
              subst hah
              rw [hs] at hs1
              exact Option.noConfusion hs1
            · have hah := Option.some.inj hh1
              subst hah
              rw [hs] at hs1
              injection hs1 with hp
              injection hp with ht hc
              rw [← ht] at hm1
              exact absurd hm hm1
        · intro h t c hh hsp hmt
          have hah := Option.some.inj hh
          subst hah
          rw [hs] at hsp
          injection hsp with hp
          injection hp with ht hc
          rw [hres, hc]
      · have hres : (HttpProvider.call scheme p).result =
            ProviderResult.error ⟨"Unknown authorization method " ++ t0⟩ := by
          simp [HttpProvider.call, hl, hs, hm]
        refine ⟨⟨fun _ => Or.inr (Or.inr ⟨ah, t0, c0, rfl, hs, hm⟩),
          fun _ => ⟨_, hres⟩⟩, ?_⟩
        intro h t c hh hsp hmt
        have hah := Option.some.inj hh
        subst hah
        rw [hs] at hsp
        injection hsp with hp
        injection hp with ht hc
        rw [← ht] at hmt
        exact absurd hmt hm

/-- Witness for the amended C1: scheme `bearer`, header
`Authorization: Bearer xyz` yields credential `xyz`. -/
theorem http_call_failure_characterization_witness :
    (HttpProvider.call ⟨"bearer"⟩
        ⟨[], [("Authorization", "Bearer xyz")], [], []⟩).result =
      ProviderResult.ok (some "xyz") :=
  (http_call_failure_characterization ⟨"bearer"⟩
      ⟨[], [("Authorization", "Bearer xyz")], [], []⟩).2
    "Bearer xyz" "Bearer" "xyz" rfl rfl rfl

/-- Claim C3 as stated: whenever the `Authorization` header has the form
`<token> <credentials>` and the token equals the declared scheme name
ignoring letter case, the call succeeds and returns the credentials. -/
def httpCaseInsensitiveMatchSpec : Prop :=
  ∀ (scheme : HttpScheme) (tok cred : String) (p : RequestParameters),
    ' ' ∉ tok.data →
    strLower tok = strLower scheme.scheme →
    p.header.lookup "Authorization" = some (tok ++ " " ++ cred) →
    (HttpProvider.call scheme p).result = ProviderResult.ok (some cred)

/-- Counterexample to C3 as stated: declared scheme `Bearer`, header
`Authorization: Bearer xyz`. The token equals the declared name (so also
ignoring case), yet the call fails, because the declared name is compared
verbatim against the lowercased token. -/
theorem http_case_insensitive_counterexample :
    ¬ httpCaseInsensitiveMatchSpec := by
  intro hclaim
  have h2 := hclaim ⟨"Bearer"⟩ "Bearer" "xyz"
      ⟨[], [("Authorization", "Bearer xyz")], [], []⟩
      (by decide) rfl rfl
  exact absurd h2 (by decide)

/-- Claim C3 (amended): matching is case-insensitive in the header token
only: when the declared scheme name is lowercase (as the registered HTTP
auth scheme names are), any token equal to it ignoring letter case yields
the credentials. -/
theorem http_scheme_token_case_insensitive
    (scheme : HttpScheme) (tok cred : String) (p : RequestParameters)
    (hlow : strLower scheme.scheme = scheme.scheme)
    (hns : ' ' ∉ tok.data)
    (hmatch : strLower tok = strLower scheme.scheme)
    (hdr : p.header.lookup "Authorization" = some (tok ++ " " ++ cred)) :
    (HttpProvider.call scheme p).result = ProviderResult.ok (some cred) := by
  have hsp := splitFirstSpace_append tok cred hns
  have hts : strLower tok = scheme.scheme := by rw [hmatch, hlow]
  unfold HttpProvider.call
  rw [hdr]
  simp [hsp, hts]

/-- Witness for the amended C3: scheme `bearer`, mixed-case token
`BeArEr`. -/
theorem http_scheme_token_case_insensitive_witness :
    (HttpProvider.call ⟨"bearer"⟩
        ⟨[], [("Authorization", "BeArEr abc")], [], []⟩).result =
      ProviderResult.ok (some "abc") :=
  http_scheme_token_case_insensitive ⟨"bearer"⟩ "BeArEr" "abc"
    ⟨[], [("Authorization", "BeArEr abc")], [], []⟩
    rfl (by decide) rfl rfl

/-- Claim C6: against a specification declaring version 3.0, detection for
a webhook request message fails with a detection error and produces no
result, whatever the downstream orchestrator would have computed (no
webhook orchestrator exists before version 3.1). -/
theorem webhook_detection_v30_fails {α : Type} (resolve : Orchestrator → α) :
    runShortcut resolve SpecVersion.v30 MessageCapability.webhookRequest =
      Except.error DetectionError.unsupportedSpecVersion
    ∧ ∀ a, runShortcut resolve SpecVersion.v30 MessageCapability.webhookRequest ≠
        Except.ok a :=
  ⟨rfl, fun _ h => Except.noConfusion h⟩

/-- Witness for C6 with a concrete resolver. -/
theorem webhook_detection_v30_fails_witness :
    runShortcut (fun o => o) SpecVersion.v30 MessageCapability.webhookRequest =
      Except.error DetectionError.unsupportedSpecVersion :=
  (webhook_detection_v30_fails (fun o => o)).1

/-- Claim C7: a message satisfying none of the recognized capability
interfaces makes detection fail with a detection error for every
specification version; the outcome is the same for every downstream
resolver, so no operation resolution or validation is attempted. -/
theorem unrecognized_message_detection_fails {α : Type}
    (resolve : Orchestrator → α) (version : SpecVersion) :
    runShortcut resolve version MessageCapability.unrecognized =
      Except.error DetectionError.unrecognizedMessage
    ∧ ∀ a, runShortcut resolve version MessageCapability.unrecognized ≠
        Except.ok a := by
  cases version <;> exact ⟨rfl, fun _ h => Except.noConfusion h⟩

/-- Witness for C7 with a concrete resolver and version. -/
theorem unrecognized_message_detection_fails_witness :
    runShortcut (fun o => o) SpecVersion.v31 MessageCapability.unrecognized =
      Except.error DetectionError.unrecognizedMessage :=
  (unrecognized_message_detection_fails (fun o => o) SpecVersion.v31).1

/-- Claim C10: security extraction is noninterfering with respect to
undeclared inputs: the HTTP provider's outcome depends only on the
`Authorization` header entry, the API-key provider's outcome depends only
on the declared name's entry in the declared location, and the HTTP
provider splits only at the first space, so credentials containing spaces
are returned in full. -/
theorem security_extraction_noninterference :
    (∀ (hs : HttpScheme) (p₁ p₂ : RequestParameters),
        p₁.header.lookup "Authorization" = p₂.header.lookup "Authorization" →
        HttpProvider.call hs p₁ = HttpProvider.call hs p₂)
    ∧ (∀ (aks : ApiKeyScheme) (p₁ p₂ : RequestParameters),
        (p₁.getLoc aks.location).lookup aks.name =
          (p₂.getLoc aks.location).lookup aks.name →
        ApiKeyProvider.call aks p₁ = ApiKeyProvider.call aks p₂)
    ∧ (∀ (hs : HttpScheme) (tok cred : String) (p : RequestParameters),
        ' ' ∉ tok.data → strLower tok = hs.scheme →
        p.header.lookup "Authorization" = some (tok ++ " " ++ cred) →
        (HttpProvider.call hs p).result = ProviderResult.ok (some cred)) := by
  refine ⟨?_, ?_, ?_⟩
  · intro hs p₁ p₂ hag
    unfold HttpProvider.call
    rw [hag]
  · intro aks p₁ p₂ hag
    unfold ApiKeyProvider.call
    simp only []
    rw [hag]
  · intro hs tok cred p hns hm hdr
    have hsp := splitFirstSpace_append tok cred hns
    unfold HttpProvider.call
    rw [hdr]
    simp [hsp, hm]

/-- Witness for C10: a bearer credential containing spaces is returned in
full, unaffected by unrelated query parameters. -/
theorem security_extraction_noninterference_witness :
    (HttpProvider.call ⟨"bearer"⟩
        ⟨[("unrelated", "1")], [("Authorization", "Bearer a b c")], [],
          []⟩).result =
      ProviderResult.ok (some "a b c") :=
  security_extraction_noninterference.2.2 ⟨"bearer"⟩ "Bearer" "a b c"
    ⟨[("unrelated", "1")], [("Authorization", "Bearer a b c")], [], []⟩
    (by decide) rfl rfl
